import Mathlib

/-!
Verification of the data-reliability gatekeeper core.

Shallow embedding, in Lean 4, of the quality-gating pipeline of this
repository: the file metadata probe, the consistency checker, the drift
history store, the anomaly engine with seasonal baselines, the two monitor
orchestrators, the schema remediator gates and the dataset registry.
Python floats are modelled as rationals; the dict-shaped tool results are
modelled as structures and closed inductive types carrying the same fields.
-/

namespace DRE

/-- Arithmetic mean of a list of rationals (SQL AVG / numpy mean); division
by zero yields 0 in Lean, matching call sites that guard the length. -/
def listMean (xs : List ℚ) : ℚ := xs.sum / (xs.length : ℚ)

/-- Sample variance (denominator n - 1), the square of DuckDB STDDEV.
DuckDB STDDEV is the sample standard deviation; since its square root is
irrational in general, baselines carry the variance and every statement
about the standard deviation being zero is phrased on the variance. -/
def varSamp (xs : List ℚ) : ℚ :=
  ((xs.map (fun x => (x - listMean xs) ^ 2)).sum) / ((xs.length : ℚ) - 1)

/-- Order-preserving de-duplication keeping the first occurrence of each
element, as pandas Series.unique does. -/
def uniqueFirst {α : Type} [DecidableEq α] : List α → List α
  | [] => []
  | x :: xs => x :: uniqueFirst (xs.filter (fun y => y ≠ x))
termination_by xs => xs.length
decreasing_by
  simp only [List.length_cons]
  exact Nat.lt_succ_of_le (List.length_filter_le _ _)

/-! ## File Metadata Probe  (src/tools/monitor/file_metadata_tool.py) -/

/-- The status field of FileMetadataTool.run. -/
inductive MStatus where
  | missing
  | duplicate
  | fresh
  | stale
deriving DecidableEq, Repr

/-- The decision field of the monitor tools. -/
inductive MDecision where
  | CONTINUE
  | STOP
deriving DecidableEq, Repr

/-- The reason strings of FileMetadataTool.run, with the formatted values
carried as payload instead of rendered text. -/
inductive MReason where
  | notFound (path : String)
  | alreadyProcessed
  | tooOld (age_hours freshness_limit : ℚ)
deriving DecidableEq, Repr

/-- What the probe reads from the filesystem for one file: existence, size
in MB (st_size scaled), age in hours derived from st_ctime and now, and the
MD5 content hash. -/
structure FileMetaInput where
  path : String
  present : Bool
  size_mb : ℚ
  age_hours : ℚ
  hash : String
deriving DecidableEq, Repr

/-- The result dictionary of FileMetadataTool.run; keys that a given branch
does not set are None here. -/
structure MetaResult where
  status : MStatus
  size_mb : Option ℚ
  hash : Option String
  age_hours : Option ℚ
  decision : MDecision
  reason : Option MReason
deriving DecidableEq, Repr

namespace FileMetadataTool

/-- FileMetadataTool.run: missing check, then duplicate check against the
in-memory seen_hashes set, then freshness (is_fresh when age_hours is at
most the limit); a fresh file's hash is added to the seen set.  Returns the
result together with the updated seen_hashes. -/
def run (seen : List String) (freshness_limit : ℚ) (f : FileMetaInput) :
    MetaResult × List String :=
  if f.present = false then
    (⟨MStatus.missing, none, none, none, MDecision.STOP,
       some (MReason.notFound f.path)⟩, seen)
  else if f.hash ∈ seen then
    (⟨MStatus.duplicate, some f.size_mb, some f.hash, none, MDecision.STOP,
       some MReason.alreadyProcessed⟩, seen)
  else
    let is_fresh := f.age_hours ≤ freshness_limit
    (⟨if is_fresh then MStatus.fresh else MStatus.stale,
       some f.size_mb, some f.hash, some f.age_hours,
       if is_fresh then MDecision.CONTINUE else MDecision.STOP,
       if is_fresh then none
       else some (MReason.tooOld f.age_hours freshness_limit)⟩,
     if is_fresh then f.hash :: seen else seen)

end FileMetadataTool

/-! ## Drift history store  (src/tools/monitor/drift_check_tool.py) -/

/-- One row of the metrics_history table of the drift store (the run
history of the Baseline Store that carries the file_hash column). -/
structure MetricsHistoryRow where
  table_name : String
  file_hash : String
  row_count : Nat
deriving DecidableEq, Repr

namespace DriftCheckTool

/-- DriftCheckTool.save_current_run: appends one row to metrics_history. -/
def save_current_run (hist : List MetricsHistoryRow) (table_name : String)
    (file_hash : String) (row_count : Nat) : List MetricsHistoryRow :=
  hist ++ [⟨table_name, file_hash, row_count⟩]

end DriftCheckTool

/-- Claim C8 as stated: for a probed file, duplicate status is equivalent
to the content hash appearing in the file_hash column of the Baseline
Store run history from prior runs (probe taken in its initial state). -/
def ClaimC8 : Prop :=
  ∀ (hist : List MetricsHistoryRow) (limit : ℚ) (f : FileMetaInput),
    f.present = true →
    ((FileMetadataTool.run [] limit f).1.status = MStatus.duplicate ↔
      f.hash ∈ hist.map (fun r => r.file_hash))

/-! ## Anomaly Engine  (src/src/tools/anomaly_detector.py) -/

/-- The baseline_type strings of get_seasonal_baseline. -/
inductive BaselineKind where
  | seasonal
  | globalHistory
  | initializing
deriving DecidableEq, Repr

/-- One row of the metric_history table written by save_run_metrics. -/
structure MetricSample where
  dataset : String
  metric : String
  timestamp : Nat
  day_of_week : Nat
  value : ℚ
deriving DecidableEq, Repr

/-- The (mean, std_dev, status) tuple of get_seasonal_baseline; std_sq
carries the square of DuckDB STDDEV (the sample variance), see varSamp. -/
structure Baseline where
  mean : ℚ
  std_sq : ℚ
  kind : BaselineKind
deriving DecidableEq, Repr

/-- Descending insertion by timestamp, modelling ORDER BY timestamp DESC. -/
def insertByTsDesc (s : MetricSample) : List MetricSample → List MetricSample
  | [] => [s]
  | t :: ts =>
      if t.timestamp ≤ s.timestamp then s :: t :: ts
      else t :: insertByTsDesc s ts

/-- Sort a sample list by timestamp, most recent first. -/
def sortByTsDesc : List MetricSample → List MetricSample
  | [] => []
  | s :: ss => insertByTsDesc s (sortByTsDesc ss)

namespace AnomalyDetector

/-- get_seasonal_baseline: mean and std over the rows of the (dataset,
metric) pair for the current weekday when at least 3 such rows exist
(seasonal); else over the 30 most recent rows of any weekday when at least
3 exist (global); else the cold-start tuple (0, 0, initializing). -/
def get_seasonal_baseline (hist : List MetricSample) (dataset_name metric_name : String)
    (current_day : Nat) : Baseline :=
  let seasonalVals := (hist.filter (fun s =>
    s.dataset == dataset_name && s.metric == metric_name &&
      s.day_of_week == current_day)).map (fun s => s.value)
  if 3 ≤ seasonalVals.length then
    ⟨listMean seasonalVals, varSamp seasonalVals, BaselineKind.seasonal⟩
  else
    let recentVals := ((sortByTsDesc (hist.filter (fun s =>
      s.dataset == dataset_name && s.metric == metric_name))).take 30).map
        (fun s => s.value)
    if 3 ≤ recentVals.length then
      ⟨listMean recentVals, varSamp recentVals, BaselineKind.globalHistory⟩
    else
      ⟨0, 0, BaselineKind.initializing⟩

end AnomalyDetector

/-- The reason strings of the per-metric loop of evaluate_run, with the
interpolated z left to the z_score field. -/
inductive RKind where
  | baselineInsufficient
  | criticalAnomaly
  | normalZ
deriving DecidableEq, Repr

/-- Round to two decimals, as the source's float(f-string with .2f) does
when storing z in the report (Python rounds ties to even, this rounds
ties up; no statement below sits on a tie). -/
def round2 (q : ℚ) : ℚ := ((round (q * 100) : ℤ) : ℚ) / 100

/-- The metric_data entry of evaluate_run for one metric: z_internal is
the z the threshold test reads, z_score the 2-decimal value stored. -/
structure MetricEval where
  z_internal : ℚ
  z_score : ℚ
  is_anomaly : Bool
  reason : RKind
deriving DecidableEq, Repr

/-- The z computed by evaluate_run for one metric in the non-initializing
case: the std = 0 branch caps a deviation from a constant at
plus-or-minus 10 preserving sign, otherwise z is (x - mean) / std. -/
def zVal (mean std x : ℚ) : ℚ :=
  if std = 0 then (if x = mean then 0 else if mean < x then 10 else -10)
  else (x - mean) / std

/-- The body of the per-metric loop of evaluate_run given the baseline
tuple (std being DuckDB STDDEV for the metric): initializing short-circuit,
then the z of zVal against the hardcoded absolute threshold 3.0. -/
def evalMetric (mean std : ℚ) (kind : BaselineKind) (x : ℚ) : MetricEval :=
  if kind = BaselineKind.initializing then
    ⟨0, 0, false, RKind.baselineInsufficient⟩
  else if 3 < |zVal mean std x| then
    ⟨zVal mean std x, round2 (zVal mean std x), true, RKind.criticalAnomaly⟩
  else
    ⟨zVal mean std x, round2 (zVal mean std x), false, RKind.normalZ⟩

/-- One metric given to evaluate_run together with the baseline tuple that
get_seasonal_baseline yields for it (std as the rational value of DuckDB
STDDEV; statements pick histories where it is exact or zero). -/
structure MetricInput where
  name : String
  baseline_mean : ℚ
  baseline_std : ℚ
  baseline_kind : BaselineKind
  value : ℚ
deriving DecidableEq, Repr

/-- An entry of the anomalies list of the evaluate_run report; the source
always sets severity to the string CRITICAL. -/
structure AnomalyEntry where
  metric : String
  severity : String
  z_score : ℚ
deriving DecidableEq, Repr

/-- The evaluate_run report: status (PASS unless anomaly_count is
positive, then ANOMALY_DETECTED), the anomalies list and the per-metric
entries. -/
structure EngReport where
  anomaly_detected : Bool
  anomalies : List AnomalyEntry
  metrics : List (String × MetricEval)
deriving DecidableEq, Repr

namespace AnomalyDetector

/-- The metric loop and report assembly of evaluate_run over the supplied
metrics and their baselines. -/
def evaluate_run (ms : List MetricInput) : EngReport :=
  let evals := ms.map (fun m =>
    (m.name, evalMetric m.baseline_mean m.baseline_std m.baseline_kind m.value))
  let anomalies := (evals.filter (fun e => e.2.is_anomaly)).map
    (fun e => ⟨e.1, "CRITICAL", e.2.z_score⟩)
  ⟨!anomalies.isEmpty, anomalies, evals⟩

end AnomalyDetector

/-! ## Sentinel orchestrator  (src/src/agents/monitor_agent.py, the
config/expectations variant of the Monitor Agent) -/

/-- The verdict status strings of evaluate_data_file; the specification
renders PASSED / WARNING / BLOCKED as PASS / PASS_WITH_WARNINGS / FAIL. -/
inductive VStatus where
  | PASSED
  | WARNING
  | BLOCKED
deriving DecidableEq, Repr

/-- Downstream criticality from the impact analyzer. -/
inductive Crit where
  | LOW
  | MEDIUM
  | HIGH
  | CRITICAL
  | UNKNOWN
deriving DecidableEq, Repr

/-- The schema diff consumed in Stage A (missing_columns or
type_mismatches block; new_columns only noted). -/
structure SchemaDiff where
  missing_columns : List String
  type_mismatches : List String
  new_columns : List String
deriving DecidableEq, Repr

/-- The quality.anomaly_thresholds block of the contract; None when the
contract does not set the key (the code then falls back to the default). -/
structure AnomalyThresholds where
  z_score_warning : Option ℚ
  z_score_critical : Option ℚ
  quality_score_warn : Option ℚ
  quality_score_block : Option ℚ
deriving DecidableEq, Repr

/-- thresholds.get of z_score_warning with default 2.5. -/
def zWarnOf (t : AnomalyThresholds) : ℚ := t.z_score_warning.getD (5 / 2)

/-- thresholds.get of z_score_critical with default 3.0. -/
def zCritOf (t : AnomalyThresholds) : ℚ := t.z_score_critical.getD 3

/-- thresholds.get of quality_score_warn with default 80. -/
def qsWarnOf (t : AnomalyThresholds) : ℚ := t.quality_score_warn.getD 80

/-- thresholds.get of quality_score_block with default 50. -/
def qsBlockOf (t : AnomalyThresholds) : ℚ := t.quality_score_block.getD 50

/-- What _calculate_overall_score reads from a ProfileReport: the per
column quality scores and the counts of constraint violations and failed
custom checks. -/
structure ProfileData where
  column_scores : List ℚ
  constraint_violations : Nat
  failed_custom_checks : Nat
deriving DecidableEq, Repr

namespace DataProfiler

/-- DataProfiler._calculate_overall_score: 100 with no columns, else the
average column score less 5 points per constraint violation and 3 per
failed custom check, floored at 0. -/
def _calculate_overall_score (p : ProfileData) : ℚ :=
  if p.column_scores.isEmpty then 100
  else
    max 0 (listMean p.column_scores
      - 5 * (p.constraint_violations : ℚ) - 3 * (p.failed_custom_checks : ℚ))

end DataProfiler

/-- Outcome of the Stage-0 pandas read of the data file. -/
inductive LoadOutcome where
  | fileNotFound
  | loadFailed
  | ok
deriving DecidableEq, Repr

/-- Outcome of the Stage-C warehouse load: success, a connection-refused
style infrastructure error, or any other exception. -/
inductive LoaderOutcome where
  | okLoad
  | infraUnreachable
  | otherException
deriving DecidableEq, Repr

/-- The sub-results one call of evaluate_data_file observes from its
tools, in pipeline order; metrics carry the baselines the anomaly engine
would fetch for them. -/
structure EvalInputs where
  load : LoadOutcome
  schema_diff : SchemaDiff
  thresholds : AnomalyThresholds
  profile : ProfileData
  metrics : List MetricInput
  criticality : Crit
  loader : LoaderOutcome
deriving DecidableEq, Repr

/-- The max_z loop of Stage B: largest absolute z over the anomalies
list, starting from 0. -/
def maxAbsZ (anomalies : List AnomalyEntry) : ℚ :=
  anomalies.foldl (fun acc a => if acc < |a.z_score| then |a.z_score| else acc) 0

namespace Sentinel

/-- Stage B of evaluate_data_file (the decision matrix): only entered
when the engine reported ANOMALY_DETECTED; HIGH/CRITICAL datasets with
max_z above z_critical block, LOW ones only warn, and any max_z above
z_warning warns; otherwise the prior verdict stands. -/
def anomalyStage (z_warn z_critical : ℚ) (crit : Crit) (rep : EngReport)
    (v : VStatus) : VStatus :=
  if rep.anomaly_detected then
    if (crit = Crit.HIGH ∨ crit = Crit.CRITICAL) ∧
        z_critical < maxAbsZ rep.anomalies then
      VStatus.BLOCKED
    else if crit = Crit.LOW ∧ z_critical < maxAbsZ rep.anomalies then
      VStatus.WARNING
    else if z_warn < maxAbsZ rep.anomalies then VStatus.WARNING
    else v
  else v

/-- evaluate_data_file reduced to its verdict status: load gate, schema
hard gate, quality-score gate (strict less-than against
quality_score_block, then quality_score_warn), anomaly soft gate, and the
Stage-C load with its infrastructure-error downgrade.  The source's local
variables are inlined. -/
def evaluate_data_file (inp : EvalInputs) : VStatus :=
  match inp.load with
  | LoadOutcome.fileNotFound => VStatus.BLOCKED
  | LoadOutcome.loadFailed => VStatus.BLOCKED
  | LoadOutcome.ok =>
    if inp.schema_diff.missing_columns ≠ [] ∨
        inp.schema_diff.type_mismatches ≠ [] then
      VStatus.BLOCKED
    else if DataProfiler._calculate_overall_score inp.profile <
        qsBlockOf inp.thresholds then
      VStatus.BLOCKED
    else
      match anomalyStage (zWarnOf inp.thresholds) (zCritOf inp.thresholds)
          inp.criticality (AnomalyDetector.evaluate_run inp.metrics)
          (if DataProfiler._calculate_overall_score inp.profile <
              qsWarnOf inp.thresholds
           then VStatus.WARNING else VStatus.PASSED) with
      | VStatus.BLOCKED => VStatus.BLOCKED
      | v2 =>
        match inp.loader with
        | LoaderOutcome.okLoad => v2
        | LoaderOutcome.infraUnreachable => VStatus.WARNING
        | LoaderOutcome.otherException => VStatus.BLOCKED

end Sentinel

/-- A run whose contract sets the two z thresholds, whose only evaluated
metric carries the given baseline and value, and whose other stages are
benign: clean schema, perfect profile score, HIGH criticality, working
warehouse. -/
def singleMetricRun (z_warn z_critical mean std : ℚ) (kind : BaselineKind)
    (x : ℚ) : EvalInputs :=
  ⟨LoadOutcome.ok, ⟨[], [], []⟩, ⟨some z_warn, some z_critical, none, none⟩,
   ⟨[100], 0, 0⟩, [⟨"m", mean, std, kind, x⟩], Crit.HIGH,
   LoaderOutcome.okLoad⟩

/-- Claim C2 as stated: against a non-initializing baseline a metric is
anomalous exactly when its absolute z exceeds the contract z_crit, and a
metric whose absolute z lies above z_warn but at or below z_crit yields a
warning verdict in an otherwise benign run. -/
def ClaimC2 : Prop :=
  ∀ (z_warn z_critical mean std x : ℚ) (kind : BaselineKind),
    kind ≠ BaselineKind.initializing →
    (((evalMetric mean std kind x).is_anomaly = true) ↔
      z_critical < |(evalMetric mean std kind x).z_internal|) ∧
    ((z_warn < |(evalMetric mean std kind x).z_internal| ∧
        |(evalMetric mean std kind x).z_internal| ≤ z_critical) →
      Sentinel.evaluate_data_file
          (singleMetricRun z_warn z_critical mean std kind x) =
        VStatus.WARNING)

/-- Claim C4 as stated: with quality_score_block set by the contract, a
computed overall score at or below it forces BLOCKED (the spec's FAIL),
and a score above it but below quality_score_warn forces WARNING. -/
def ClaimC4 : Prop :=
  ∀ (inp : EvalInputs) (qb : ℚ),
    inp.thresholds.quality_score_block = some qb →
    (DataProfiler._calculate_overall_score inp.profile ≤ qb →
      Sentinel.evaluate_data_file inp = VStatus.BLOCKED) ∧
    ((qb < DataProfiler._calculate_overall_score inp.profile ∧
        DataProfiler._calculate_overall_score inp.profile <
          qsWarnOf inp.thresholds) →
      Sentinel.evaluate_data_file inp = VStatus.WARNING)

/-! ## Tabular values and frames, as the Consistency Checker sees them
(src/tools/monitor/consistency_check_tool.py) -/

/-- A cell of a loaded table; the checker only distinguishes values by
their common string representation, so integer and string cells cover the
type-coercion behaviour astype(str) exists for. -/
inductive Cell where
  | intC (n : ℤ)
  | strC (s : String)
deriving DecidableEq, Repr

/-- astype(str) on a single value. -/
def cellStr : Cell → String
  | Cell.intC n => toString n
  | Cell.strC s => s

/-- astype(str) on a possibly-missing value: pandas renders NaN as the
string nan. -/
def optCellStr : Option Cell → String
  | some c => cellStr c
  | none => "nan"

/-- A DataFrame as the checker uses it: named columns of equal length,
cells possibly null. -/
structure DataFrame where
  cols : List (String × List (Option Cell))
deriving DecidableEq, Repr

/-- df.columns. -/
def DataFrame.columns (df : DataFrame) : List String :=
  df.cols.map (fun c => c.1)

/-- The values of one column ([] when absent; callers test membership in
df.columns first). -/
def DataFrame.getCol (df : DataFrame) (name : String) : List (Option Cell) :=
  match df.cols.find? (fun c => c.1 == name) with
  | some c => c.2
  | none => []

/-- len(df): the row count (the length of the first column). -/
def DataFrame.nRows (df : DataFrame) : Nat :=
  match df.cols with
  | [] => 0
  | c :: _ => c.2.length

/-- One foreignKeys entry of a contract schema; fields are optional so
that the KeyError / IndexError path of the source is representable. -/
structure FKDef where
  columns : List String
  referenceTable : Option String
  referenceColumns : List String
deriving DecidableEq, Repr

/-- One entry of the contract's schema list. -/
structure SchemaObj where
  name : Option String
  foreignKeys : List FKDef
deriving DecidableEq, Repr

/-- A parsed contract document as the checker reads it. -/
structure ContractDoc where
  schemas : List SchemaObj
deriving DecidableEq, Repr

/-- The result dictionary of ConsistencyCheckTool.run, one constructor
per distinct shape the source returns: the failMissingCol shape carries
status FAIL but no orphan fields. -/
inductive CResult where
  | skipped (message : String)
  | errorC (message : String)
  | failMissingCol (message : String)
  | checked (relationship : String) (orphan_count : Nat) (orphan_pct : ℚ)
      (sample_orphans : List Cell)
deriving DecidableEq, Repr

/-- The status field is the string FAIL: for the missing-FK-column result
and for a checked result with a positive orphan count. -/
def CResult.statusFail : CResult → Bool
  | CResult.skipped _ => false
  | CResult.errorC _ => false
  | CResult.failMissingCol _ => true
  | CResult.checked _ n _ _ => 0 < n

/-- The decision field is CRITICAL_STOP exactly on a checked result with
a positive orphan count. -/
def CResult.criticalStop : CResult → Bool
  | CResult.checked _ n _ _ => 0 < n
  | _ => false

/-- The orphan rows of the child frame for one FK triple: rows with a
non-null key whose string form is absent from the string forms of the
reference key column ([] when the reference table is absent; run guards
that case first). -/
def fkOrphans (refEnv : String → Option DataFrame) (df : DataFrame)
    (fk_col ref_table ref_pk : String) : List Cell :=
  match refEnv ref_table with
  | none => []
  | some refDf =>
      ((df.getCol fk_col).filterMap id).filter
        (fun v => !(((refDf.getCol ref_pk).map optCellStr).contains (cellStr v)))

namespace ConsistencyCheckTool

/-- Locating the table's schema in the contract: the first schema whose
name matches, else a sole schema as fallback. -/
def findTargetSchema (c : ContractDoc) (table_name : String) :
    Option SchemaObj :=
  match c.schemas.find? (fun s => s.name == some table_name) with
  | some s => some s
  | none => if c.schemas.length = 1 then c.schemas.head? else none

/-- ConsistencyCheckTool.run: skip without contract, locate the table's
schema (falling back to a sole schema), take only the FIRST foreignKeys
entry, parse it (ERROR when malformed), FAIL when the child lacks the key
column, ERROR when the reference table or its key column is missing or
the child is empty (the source's division by zero), else the checked
result with count, percentage and up to 5 unique sampled orphan IDs.
refEnv stands for the data directory of reference csv files. -/
def run (refEnv : String → Option DataFrame) (df : DataFrame)
    (table_name : String) (contract : Option ContractDoc) : CResult :=
  match contract with
  | none => CResult.skipped "No contract provided to check FKs"
  | some c =>
    match findTargetSchema c table_name with
    | none => CResult.skipped "Schema not found in contract"
    | some ts =>
      match ts.foreignKeys with
      | [] => CResult.skipped "No foreign keys defined in contract"
      | fk :: _ =>
        match fk.columns.head?, fk.referenceTable, fk.referenceColumns.head? with
        | some fk_col, some ref_table, some ref_pk =>
          if !(df.columns.contains fk_col) then
            CResult.failMissingCol "FK Column missing in source"
          else
            match refEnv ref_table with
            | none => CResult.errorC "Reference dataset not found"
            | some refDf =>
              if !(refDf.columns.contains ref_pk) then
                CResult.errorC "Reference column missing"
              else if df.nRows = 0 then
                CResult.errorC "Consistency check failed: division by zero"
              else
                CResult.checked
                  (table_name ++ "." ++ fk_col ++ " -> " ++
                    ref_table ++ "." ++ ref_pk)
                  (fkOrphans refEnv df fk_col ref_table ref_pk).length
                  (((fkOrphans refEnv df fk_col ref_table ref_pk).length : ℚ) /
                    (df.nRows : ℚ) * 100)
                  ((uniqueFirst (fkOrphans refEnv df fk_col ref_table ref_pk)).take 5)
        | _, _, _ => CResult.errorC "Invalid foreignKey definition in YAML"

end ConsistencyCheckTool

/-! ## Gatekeeper orchestrator  (src/agents/monitor_agent.py, the
contracts/ ODCS variant of the Monitor Agent) -/

/-- Severity of a schema violation. -/
inductive Sev where
  | CRITICAL
  | WARNING
deriving DecidableEq, Repr

/-- One schema violation entry. -/
structure GViolation where
  severity : Sev
  column : String
  issue : String
  expected : String
  actual : String
deriving DecidableEq, Repr

/-- What the run reads from SchemaValidatorTool.run. -/
structure GSchemaResult where
  decision_critical : Bool
  violations : List GViolation
deriving DecidableEq, Repr

/-- What the run reads from DataLoaderTool.run. -/
structure GLoadResult where
  critical_stop : Bool
  rows : Option Nat
  reason : Option String
deriving DecidableEq, Repr

/-- One drift warning from DriftCheckTool.run. -/
structure DriftWarn where
  metric : String
  current : ℚ
  baseline : ℚ
  deviation_pct : ℚ
deriving DecidableEq, Repr

/-- The warnings the final verdict collects, with the interpolated
values carried as payload. -/
inductive GWarning where
  | seasonalW (context : String)
  | schemaW (column issue expected actual : String)
  | driftW (metric : String) (current baseline deviation_pct : ℚ)
  | noContractW
deriving DecidableEq, Repr

/-- The critical_errors entries, one constructor per f-string of the
source. -/
inductive GError where
  | sanityErr (reason : Option MReason)
  | loadErr (reason : Option String)
  | schemaErr (critical_count : Nat)
  | consistencyErr (orphan_count : Nat) (orphan_pct : ℚ)
      (relationship : String) (sample : List Cell)
deriving DecidableEq, Repr

/-- The report status values of the Gatekeeper run. -/
inductive GStatus where
  | PASS
  | PASS_WITH_WARNINGS
  | FAIL
  | CONTRACT_MISSING
deriving DecidableEq, Repr

/-- The report fields the claims speak about (stats, quarantine indices
and the advisory fields are elided). -/
structure GReport where
  status : GStatus
  critical_errors : List GError
  warnings : List GWarning
deriving DecidableEq, Repr

/-- Observable steps of one run, in execution order; saveMetrics is the
drift store append of the current run's metrics, composeVerdict the point
where the final status with its warnings and critical errors is fixed. -/
inductive GEvent where
  | probeMetadata
  | loadData
  | validateSchema
  | profileStats
  | inferContract
  | checkConsistency
  | driftCheck
  | saveMetrics
  | seasonalCheck
  | learnSeasonal
  | composeVerdict
  | emitReport
deriving DecidableEq, Repr

/-- The inputs one Gatekeeper run observes: the file on disk plus the
probe state, and the results its tools would produce in pipeline order. -/
structure GInputs where
  file : FileMetaInput
  seen : List String
  freshness_limit : ℚ
  load : GLoadResult
  contract_found : Bool
  schema : GSchemaResult
  consistency : CResult
  drift_warnings : List DriftWarn
  seasonal_is_anomaly : Bool
  seasonal_context : String
deriving DecidableEq, Repr

namespace Contracts.MonitorAgent

/-- Steps 4 to 6 of a run that passed every gate: profile, drift check,
metric append to the drift store, seasonal check and learning (the
source guards learning on the schema decision), then the verdict:
PASS_WITH_WARNINGS exactly when the collected seasonal, schema-warning
and drift warnings are non-empty, with empty critical_errors. -/
def happyPath (inp : GInputs) : GReport × List GEvent :=
  (⟨(if ((if inp.seasonal_is_anomaly then
          [GWarning.seasonalW inp.seasonal_context] else []) ++
        ((inp.schema.violations.filter (fun v => v.severity == Sev.WARNING)).map
          (fun v => GWarning.schemaW v.column v.issue v.expected v.actual)) ++
        (inp.drift_warnings.map (fun w =>
          GWarning.driftW w.metric w.current w.baseline w.deviation_pct))) ≠ []
      then GStatus.PASS_WITH_WARNINGS else GStatus.PASS),
    [],
    ((if inp.seasonal_is_anomaly then
        [GWarning.seasonalW inp.seasonal_context] else []) ++
      ((inp.schema.violations.filter (fun v => v.severity == Sev.WARNING)).map
        (fun v => GWarning.schemaW v.column v.issue v.expected v.actual)) ++
      (inp.drift_warnings.map (fun w =>
        GWarning.driftW w.metric w.current w.baseline w.deviation_pct)))⟩,
   [GEvent.probeMetadata, GEvent.loadData, GEvent.validateSchema,
    GEvent.checkConsistency, GEvent.profileStats, GEvent.driftCheck,
    GEvent.saveMetrics, GEvent.seasonalCheck] ++
   (if inp.schema.decision_critical = false then [GEvent.learnSeasonal] else []) ++
   [GEvent.composeVerdict, GEvent.emitReport])

/-- MonitorAgent.run of the Gatekeeper, returning the report and the
event trace, or none when the run raises: metadata gate, load gate, then
either the schema gate, consistency gate and happy path under a found
contract, or the draft-contract CONTRACT_MISSING path without one.  Two
consistency shapes make the run raise a KeyError and emit nothing: the
failMissingCol shape has status FAIL but no orphan_count field for the
failure message, and the errorC shape reaches the success print which
reads the relationship field it does not have. -/
def run (inp : GInputs) : Option (GReport × List GEvent) :=
  if (FileMetadataTool.run inp.seen inp.freshness_limit inp.file).1.decision =
      MDecision.STOP then
    some (⟨GStatus.FAIL,
      [GError.sanityErr (FileMetadataTool.run inp.seen inp.freshness_limit
        inp.file).1.reason], []⟩,
      [GEvent.probeMetadata, GEvent.composeVerdict, GEvent.emitReport])
  else if inp.load.critical_stop = true ∨ inp.load.rows = none then
    some (⟨GStatus.FAIL, [GError.loadErr inp.load.reason], []⟩,
      [GEvent.probeMetadata, GEvent.loadData, GEvent.composeVerdict,
       GEvent.emitReport])
  else if inp.contract_found = true then
    if inp.schema.decision_critical = true then
      some (⟨GStatus.FAIL,
        [GError.schemaErr (inp.schema.violations.countP
          (fun v => v.severity == Sev.CRITICAL))], []⟩,
        [GEvent.probeMetadata, GEvent.loadData, GEvent.validateSchema,
         GEvent.composeVerdict, GEvent.emitReport])
    else
      match inp.consistency with
      | CResult.failMissingCol _ => none
      | CResult.errorC _ => none
      | CResult.checked rel cnt pct sample =>
        if 0 < cnt then
          some (⟨GStatus.FAIL, [GError.consistencyErr cnt pct rel sample], []⟩,
            [GEvent.probeMetadata, GEvent.loadData, GEvent.validateSchema,
             GEvent.checkConsistency, GEvent.composeVerdict, GEvent.emitReport])
        else some (happyPath inp)
      | _ => some (happyPath inp)
  else
    some (⟨GStatus.CONTRACT_MISSING, [], [GWarning.noContractW]⟩,
      [GEvent.probeMetadata, GEvent.loadData, GEvent.profileStats,
       GEvent.inferContract, GEvent.composeVerdict, GEvent.emitReport])

end Contracts.MonitorAgent

/-! ## Schema Remediator  (src/src/tools/schema_remediator.py) -/

/-- What the two gates observe of a yaml.safe_load result: None-ness,
dict-ness, Python truthiness, presence of the columns key and the column
name list (none when iterating the columns value raises). -/
structure PyDoc where
  isNone : Bool
  isDict : Bool
  truthy : Bool
  hasColumnsKey : Bool
  columnNames : Option (List (Option String))
deriving DecidableEq, Repr

namespace SchemaRemediator

/-- doc.get of columns with default []: the names when the key is there,
the empty list otherwise; none propagates an iteration error. -/
def colNamesOf (p : PyDoc) : Option (List (Option String)) :=
  if p.hasColumnsKey then p.columnNames else some []

/-- Safety gate 1: the content parses (no YAMLError), is a non-None
dict, and has a columns key.  Note: the emptiness of the columns list is
not checked. -/
def _validate_yaml (parse : String → Option PyDoc) (content : String) : Bool :=
  match parse content with
  | none => false
  | some p => !p.isNone && p.isDict && p.hasColumnsKey

/-- Safety gate 2: allows on any parse or iteration error and on falsy
documents; otherwise blocks exactly when some original column name is
absent from the proposal. -/
def _validate_no_columns_removed (parse : String → Option PyDoc)
    (original_yaml proposed_yaml : String) : Bool :=
  match parse original_yaml, parse proposed_yaml with
  | none, _ => true
  | _, none => true
  | some o, some p =>
    if !o.truthy || !p.truthy then true
    else
      match colNamesOf o, colNamesOf p with
      | none, _ => true
      | _, none => true
      | some oc, some pc =>
        if (oc.filter (fun n => !(pc.contains n))).isEmpty then true
        else false

/-- The gate phase of propose_schema_update on the stripped LLM output:
gate 1 then gate 2, returning the original on failure and the proposal
content on success (the LLM call and its exception path are outside the
gates). -/
def propose_schema_update (parse : String → Option PyDoc)
    (current_yaml content : String) : String :=
  if !(_validate_yaml parse content) then current_yaml
  else if !(_validate_no_columns_removed parse current_yaml content) then
    current_yaml
  else content

end SchemaRemediator

/-- The claim's reading of gate 1: a well-formed document with a
NON-EMPTY columns list. -/
def wellFormedNonEmptyCols (parse : String → Option PyDoc) (s : String) : Bool :=
  match parse s with
  | none => false
  | some p => !p.isNone && p.isDict && p.hasColumnsKey &&
      (match p.columnNames with
       | some l => !l.isEmpty
       | none => false)

/-- The column names a document contributes, for the subset statement. -/
def namesOfDoc (parse : String → Option PyDoc) (s : String) :
    List (Option String) :=
  match parse s with
  | some p =>
    match SchemaRemediator.colNamesOf p with
    | some l => l
    | none => []
  | none => []

/-- A parse environment with two well-formed truthy documents whose
columns lists are both empty. -/
def C7parse : String → Option PyDoc := fun s =>
  if s = "cur" ∨ s = "prop" then some ⟨false, true, true, true, some []⟩
  else none

/-- A parse environment for the witness: the current contract has column
a, the proposal columns a and b. -/
def C7parseW : String → Option PyDoc := fun s =>
  if s = "cur" then some ⟨false, true, true, true, some [some "a"]⟩
  else if s = "prop" then
    some ⟨false, true, true, true, some [some "a", some "b"]⟩
  else none

/-- Claim C7 as stated: any accepted proposal's column names include the
current contract's, and a proposal failing the syntactic gate — which
per the claim requires a non-empty columns list — is rejected with the
original returned unchanged. -/
def ClaimC7 : Prop :=
  ∀ (parse : String → Option PyDoc) (cur prop_ : String),
    (SchemaRemediator.propose_schema_update parse cur prop_ ≠ cur →
      ∀ n ∈ namesOfDoc parse cur, n ∈ namesOfDoc parse prop_) ∧
    (wellFormedNonEmptyCols parse prop_ = false →
      SchemaRemediator.propose_schema_update parse cur prop_ = cur)

/-! ## Dataset registry  (src/src/tools/anomaly_detector.py,
update_dataset_registry) -/

/-- One row of the dataset_registry table. -/
structure RegistryEntry where
  dataset_name : String
  contract_path : String
  lifecycle : String
  criticality : String
  last_scanned : Nat
  last_status : Option String
  last_file_mtime : Option ℚ
  scan_count : Nat
deriving DecidableEq, Repr

namespace AnomalyDetector

/-- update_dataset_registry for one dataset: on an existing row, every
plain field is overwritten, last_status and last_file_mtime go through
COALESCE (the argument when non-null, else the stored value) and
scan_count is the stored count plus one; on first insert the arguments
are stored as given with scan_count 1. -/
def update_dataset_registry (existing : Option RegistryEntry)
    (dataset_name contract_path lifecycle criticality : String) (now : Nat)
    (status : Option String) (file_mtime : Option ℚ) : RegistryEntry :=
  match existing with
  | some e =>
      ⟨dataset_name, contract_path, lifecycle, criticality, now,
       status.or e.last_status, file_mtime.or e.last_file_mtime,
       e.scan_count + 1⟩
  | none =>
      ⟨dataset_name, contract_path, lifecycle, criticality, now,
       status, file_mtime, 1⟩

end AnomalyDetector

/-- Claim C5 as stated: in every emitted run, any append of the current
run's metrics to the baseline store happens only after the final verdict
has been composed. -/
def ClaimC5 : Prop :=
  ∀ (inp : GInputs) (rep : GReport) (tr : List GEvent),
    Contracts.MonitorAgent.run inp = some (rep, tr) →
    ∀ i : Fin tr.length, tr.get i = GEvent.saveMetrics →
      ∃ j : Fin tr.length, (j : ℕ) < (i : ℕ) ∧ tr.get j = GEvent.composeVerdict

/-- A fully clean run: fresh file, loadable data, contract found, schema
and consistency fine, no warnings. -/
def C5cleanRun : GInputs :=
  ⟨⟨"transactions.csv", true, 1, 1, "h1"⟩, [], 24, ⟨false, some 100, none⟩,
   true, ⟨false, []⟩, CResult.skipped "No foreign keys defined in contract",
   [], false, ""⟩

/-- A run stopped at the metadata gate: the probed file is 48 hours old
against a 24 hour limit. -/
def C1staleRun : GInputs :=
  ⟨⟨"transactions.csv", true, 1, 48, "h1"⟩, [], 24, ⟨false, some 100, none⟩,
   true, ⟨false, []⟩, CResult.skipped "No foreign keys defined in contract",
   [], false, ""⟩

/-- Claim C6 as stated: every foreign_key entry of the table's contract
schema with a positive orphan count makes the consistency decision
CRITICAL_STOP. -/
def ClaimC6 : Prop :=
  ∀ (refEnv : String → Option DataFrame) (df : DataFrame) (table : String)
    (c : ContractDoc) (ts : SchemaObj) (fk : FKDef)
    (fk_col ref_table ref_pk : String),
    ts ∈ c.schemas → ts.name = some table → fk ∈ ts.foreignKeys →
    fk.columns.head? = some fk_col → fk.referenceTable = some ref_table →
    fk.referenceColumns.head? = some ref_pk →
    0 < (fkOrphans refEnv df fk_col ref_table ref_pk).length →
    (ConsistencyCheckTool.run refEnv df table (some c)).criticalStop = true

/-- Child frame for the C6 counterexample: key a references r1 cleanly,
key b holds the value 9 absent from r2. -/
def C6df : DataFrame :=
  ⟨[("a", [some (Cell.intC 1)]), ("b", [some (Cell.intC 9)])]⟩

/-- Reference environment for the C6 counterexample. -/
def C6refEnv : String → Option DataFrame := fun n =>
  if n = "r1" then some ⟨[("x", [some (Cell.intC 1)])]⟩
  else if n = "r2" then some ⟨[("y", [some (Cell.intC 2)])]⟩
  else none

/-- Contract for the C6 counterexample: table t with two foreign keys,
the first clean, the second orphaned. -/
def C6contract : ContractDoc :=
  ⟨[⟨some "t", [⟨["a"], some "r1", ["x"]⟩, ⟨["b"], some "r2", ["y"]⟩]⟩]⟩

/-- Child frame for the C6 witness: two rows on key a, one of them (the
value 7) absent from r1. -/
def C6wdf : DataFrame :=
  ⟨[("a", [some (Cell.intC 1), some (Cell.intC 7)])]⟩

/-- Contract for the C6 witness: a single foreign key on a. -/
def C6wcontract : ContractDoc :=
  ⟨[⟨some "t", [⟨["a"], some "r1", ["x"]⟩]⟩]⟩

/-- History for the C3 witness: three same-weekday samples of constant
value 100. -/
def C3hist : List MetricSample :=
  [⟨"t", "row_count", 1, 2, 100⟩, ⟨"t", "row_count", 2, 2, 100⟩,
   ⟨"t", "row_count", 3, 2, 100⟩]

/-- A stored registry row for the C10 witness. -/
def C10entry : RegistryEntry :=
  ⟨"transactions", "old/path.yaml", "active", "LOW", 1, some "PASSED",
   some 10, 4⟩

/-- A run hitting the quality-score gate strictly: perfect stages around
a profile scoring 40 against a contract block threshold of 50. -/
def C4blockedInput : EvalInputs :=
  ⟨LoadOutcome.ok, ⟨[], [], []⟩, ⟨none, none, none, some 50⟩, ⟨[40], 0, 0⟩,
   [], Crit.LOW, LoaderOutcome.okLoad⟩

/-- A run whose overall quality score is exactly the contract's
quality_score_block threshold of 50, all other stages benign. -/
def C4boundaryInput : EvalInputs :=
  ⟨LoadOutcome.ok, ⟨[], [], []⟩, ⟨none, none, none, some 50⟩, ⟨[50], 0, 0⟩,
   [], Crit.LOW, LoaderOutcome.okLoad⟩

/-! ## Theorems -/

/-- In a run whose other stages are benign, a metric that the engine does
not flag leaves the verdict at PASSED: helper for the C2 theorems. -/
theorem benignRun_passes (z_warn z_critical mean std : ℚ) (kind : BaselineKind)
    (x : ℚ) (h : (evalMetric mean std kind x).is_anomaly = false) :
    Sentinel.evaluate_data_file (singleMetricRun z_warn z_critical mean std kind x) =
      VStatus.PASSED := by
  simp [Sentinel.evaluate_data_file, singleMetricRun, Sentinel.anomalyStage,
    AnomalyDetector.evaluate_run, DataProfiler._calculate_overall_score,
    qsBlockOf, qsWarnOf, listMean, h]
  norm_num

/-- Helper: the z for baseline mean 0, std 1 and current value 3. -/
theorem zVal_mean0_std1_val3 : zVal 0 1 3 = 3 := by
  norm_num [zVal]

/-- Helper: absolute value of the rational 3. -/
theorem abs_three_q : |(3 : ℚ)| = 3 := abs_of_nonneg (by norm_num)

/-- Helper: a z of exactly 3 is not flagged by the engine. -/
theorem evalMetric_at_three_not_anomaly :
    (evalMetric 0 1 BaselineKind.globalHistory 3).is_anomaly = false := by
  simp [evalMetric, zVal_mean0_std1_val3, abs_three_q]

/-- Helper: the z recorded for that metric is 3. -/
theorem evalMetric_at_three_z :
    (evalMetric 0 1 BaselineKind.globalHistory 3).z_internal = 3 := by
  simp [evalMetric, zVal_mean0_std1_val3, abs_three_q]

/-- Claim C2 fails on the code: with the default thresholds (z_warn 2.5,
z_crit 3) a metric whose z is exactly 3 — inside the claim's warning band
— is not flagged by the engine (the hardcoded test is strictly 3 < abs z)
and the benign run ends PASSED, not WARNING; the contract thresholds
never reach the engine. -/
theorem C2_counterexample : ¬ ClaimC2 := by
  intro h
  have h2 := (h (5 / 2) 3 0 1 3 BaselineKind.globalHistory (by decide)).2
    (by rw [evalMetric_at_three_z, abs_three_q]; constructor <;> norm_num)
  have h3 := benignRun_passes (5 / 2) 3 0 1 BaselineKind.globalHistory 3
    evalMetric_at_three_not_anomaly
  exact absurd (h2.symm.trans h3) (by decide)

/-- Claim C2 amended: a metric with a non-initializing baseline is flagged
anomalous exactly when its absolute z exceeds the hardcoded threshold 3.0
(the contract's z_crit and z_warn only steer the verdict decision matrix
over already-flagged anomalies); a metric at or below 3 — in particular
one inside the (z_warn, z_crit] band, or exactly at z_crit — is recorded
with the Normal reason and, in an otherwise benign run, leaves the verdict
at PASSED, producing no warning. -/
theorem C2_amended (mean std x : ℚ) (kind : BaselineKind)
    (hk : kind ≠ BaselineKind.initializing) :
    (((evalMetric mean std kind x).is_anomaly = true) ↔
      3 < |(evalMetric mean std kind x).z_internal|) ∧
    ((evalMetric mean std kind x).is_anomaly = false →
      (evalMetric mean std kind x).reason = RKind.normalZ) ∧
    (∀ z_warn z_critical : ℚ,
      (evalMetric mean std kind x).is_anomaly = false →
      Sentinel.evaluate_data_file
          (singleMetricRun z_warn z_critical mean std kind x) =
        VStatus.PASSED) := by
  refine ⟨?_, ?_, ?_⟩
  · unfold evalMetric
    rw [if_neg hk]
    by_cases h3 : 3 < |zVal mean std x| <;> simp [h3]
  · unfold evalMetric
    rw [if_neg hk]
    by_cases h3 : 3 < |zVal mean std x| <;> simp [h3]
  · intro z_warn z_critical h
    exact benignRun_passes z_warn z_critical mean std kind x h

theorem C2_amended_witness :
    (((evalMetric 0 1 BaselineKind.globalHistory 3).is_anomaly = true) ↔
      3 < |(evalMetric 0 1 BaselineKind.globalHistory 3).z_internal|) ∧
    ((evalMetric 0 1 BaselineKind.globalHistory 3).is_anomaly = false →
      (evalMetric 0 1 BaselineKind.globalHistory 3).reason = RKind.normalZ) ∧
    Sentinel.evaluate_data_file
        (singleMetricRun (5 / 2) 3 0 1 BaselineKind.globalHistory 3) =
      VStatus.PASSED := by
  have h := C2_amended 0 1 3 BaselineKind.globalHistory (by decide)
  exact ⟨h.1, h.2.1, h.2.2 (5 / 2) 3 evalMetric_at_three_not_anomaly⟩

/-- Helper: the overall score of the boundary profile is exactly 50. -/
theorem C4boundary_score :
    DataProfiler._calculate_overall_score C4boundaryInput.profile = 50 := by
  show DataProfiler._calculate_overall_score ⟨[50], 0, 0⟩ = 50
  unfold DataProfiler._calculate_overall_score
  simp [listMean]

/-- Helper: the overall score of the blocked profile is 40. -/
theorem C4blocked_score :
    DataProfiler._calculate_overall_score C4blockedInput.profile = 40 := by
  show DataProfiler._calculate_overall_score ⟨[40], 0, 0⟩ = 40
  unfold DataProfiler._calculate_overall_score
  simp [listMean]

/-- Helper: the boundary run evaluates to WARNING. -/
theorem C4boundary_eval :
    Sentinel.evaluate_data_file C4boundaryInput = VStatus.WARNING := by
  have hs : DataProfiler._calculate_overall_score
      (⟨[50], 0, 0⟩ : ProfileData) = 50 := C4boundary_score
  unfold Sentinel.evaluate_data_file
  norm_num [C4boundaryInput, hs, qsBlockOf, qsWarnOf, zWarnOf, zCritOf,
    Sentinel.anomalyStage, AnomalyDetector.evaluate_run]

/-- Claim C4 fails on the code: with quality_score_block set to 50 and a
computed overall score of exactly 50, the gate (a strict less-than) does
not fire and the benign run ends WARNING, where the claim requires FAIL
at a score equal to the block threshold. -/
theorem C4_counterexample : ¬ ClaimC4 := by
  intro h
  have h1 := (h C4boundaryInput 50 rfl).1 (le_of_eq C4boundary_score)
  exact absurd (h1.symm.trans C4boundary_eval) (by decide)

/-- Claim C4 amended: a computed overall quality score strictly below the
contract's quality_score_block forces BLOCKED (the spec's FAIL) no matter
what the other stages report; a score at or above the block threshold but
strictly below quality_score_warn can never end PASSED, and ends WARNING
(the spec's PASS_WITH_WARNINGS) whenever no later stage escalates (no
engine anomaly and a working warehouse load). -/
theorem C4_amended (inp : EvalInputs) (qb : ℚ)
    (hqb : inp.thresholds.quality_score_block = some qb) :
    (DataProfiler._calculate_overall_score inp.profile < qb →
      Sentinel.evaluate_data_file inp = VStatus.BLOCKED) ∧
    ((qb ≤ DataProfiler._calculate_overall_score inp.profile ∧
        DataProfiler._calculate_overall_score inp.profile <
          qsWarnOf inp.thresholds) →
      Sentinel.evaluate_data_file inp ≠ VStatus.PASSED) ∧
    ((qb ≤ DataProfiler._calculate_overall_score inp.profile ∧
        DataProfiler._calculate_overall_score inp.profile <
          qsWarnOf inp.thresholds ∧
        inp.load = LoadOutcome.ok ∧
        inp.schema_diff.missing_columns = [] ∧
        inp.schema_diff.type_mismatches = [] ∧
        (AnomalyDetector.evaluate_run inp.metrics).anomaly_detected = false ∧
        inp.loader = LoaderOutcome.okLoad) →
      Sentinel.evaluate_data_file inp = VStatus.WARNING) := by
  have hblock : qsBlockOf inp.thresholds = qb := by
    unfold qsBlockOf
    rw [hqb]
    rfl
  have hstage_ne : ∀ rep : EngReport,
      Sentinel.anomalyStage (zWarnOf inp.thresholds) (zCritOf inp.thresholds)
        inp.criticality rep VStatus.WARNING ≠ VStatus.PASSED := by
    intro rep
    unfold Sentinel.anomalyStage
    split_ifs <;> simp
  refine ⟨?_, ?_, ?_⟩
  · intro hlt
    unfold Sentinel.evaluate_data_file
    cases hload : inp.load
    · rfl
    · rfl
    · simp only
      split_ifs with hschema hqs hw
      · rfl
      · rfl
      · exact absurd (by rw [hblock]; exact hlt) hqs
      · exact absurd (by rw [hblock]; exact hlt) hqs
  · rintro ⟨hge, hwarn⟩
    unfold Sentinel.evaluate_data_file
    cases hload : inp.load
    · simp
    · simp
    · simp only
      split_ifs with hschema hqs
      · simp
      · simp
      · cases hv2 : Sentinel.anomalyStage (zWarnOf inp.thresholds)
            (zCritOf inp.thresholds) inp.criticality
            (AnomalyDetector.evaluate_run inp.metrics) VStatus.WARNING
        · exact absurd hv2 (hstage_ne _)
        · cases hl : inp.loader <;> simp
        · simp
  · rintro ⟨hge, hwarn, hload, hm, ht, hanom, hl⟩
    unfold Sentinel.evaluate_data_file
    rw [hload]
    simp only [hm, ht]
    rw [if_neg (by simp)]
    rw [if_neg (by rw [hblock]; exact not_lt.mpr hge)]
    rw [if_pos hwarn]
    have hstage : Sentinel.anomalyStage (zWarnOf inp.thresholds)
        (zCritOf inp.thresholds) inp.criticality
        (AnomalyDetector.evaluate_run inp.metrics) VStatus.WARNING =
        VStatus.WARNING := by
      unfold Sentinel.anomalyStage
      rw [if_neg (by rw [hanom]; simp)]
    rw [hstage, hl]

theorem C4_amended_witness :
    Sentinel.evaluate_data_file C4blockedInput = VStatus.BLOCKED ∧
    Sentinel.evaluate_data_file C4boundaryInput = VStatus.WARNING :=
  ⟨(C4_amended C4blockedInput 50 rfl).1
     (by rw [C4blocked_score]; norm_num),
   (C4_amended C4boundaryInput 50 rfl).2.2
     ⟨le_of_eq C4boundary_score.symm,
      by rw [C4boundary_score]; norm_num [qsWarnOf, C4boundaryInput],
      rfl, rfl, rfl, rfl, rfl⟩⟩

/-- Claim C8 fails on the code: the probe keeps its own in-memory
seen_hashes set and never consults the run history, so a hash already
recorded in metric history with file_hash "h" is still reported fresh. -/
theorem C8_counterexample : ¬ ClaimC8 := by
  intro h
  have := (h [⟨"transactions", "h", 100⟩] 24
      ⟨"f.csv", true, 1, 1, "h"⟩ rfl).mpr (by simp)
  simp [FileMetadataTool.run] at this

/-- Claim C8 amended: duplicate detection compares the file hash against
the in-memory seen_hashes set of the tool instance (populated only with
hashes of files previously judged fresh in the same process, never from
the Baseline Store run history), and a match yields status duplicate with
decision STOP; only a fresh file's hash is added to the set. -/
theorem C8_amended (seen : List String) (limit : ℚ) (f : FileMetaInput)
    (hp : f.present = true) :
    ((FileMetadataTool.run seen limit f).1.status = MStatus.duplicate ↔
      f.hash ∈ seen) ∧
    ((FileMetadataTool.run seen limit f).1.status = MStatus.duplicate →
      (FileMetadataTool.run seen limit f).1.decision = MDecision.STOP) ∧
    ((FileMetadataTool.run seen limit f).2 =
      if (FileMetadataTool.run seen limit f).1.status = MStatus.fresh
      then f.hash :: seen else seen) := by
  unfold FileMetadataTool.run
  rw [hp]
  by_cases hmem : f.hash ∈ seen
  · simp [hmem]
  · by_cases hfr : f.age_hours ≤ limit <;> simp [hmem, hfr]

theorem C8_amended_witness :
    ((FileMetadataTool.run ["h"] 24 ⟨"f.csv", true, 1, 1, "h"⟩).1.status =
        MStatus.duplicate ↔ "h" ∈ ["h"]) ∧
    ((FileMetadataTool.run ["h"] 24 ⟨"f.csv", true, 1, 1, "h"⟩).1.status =
        MStatus.duplicate →
      (FileMetadataTool.run ["h"] 24 ⟨"f.csv", true, 1, 1, "h"⟩).1.decision =
        MDecision.STOP) ∧
    ((FileMetadataTool.run ["h"] 24 ⟨"f.csv", true, 1, 1, "h"⟩).2 =
      if (FileMetadataTool.run ["h"] 24 ⟨"f.csv", true, 1, 1, "h"⟩).1.status =
          MStatus.fresh
      then "h" :: ["h"] else ["h"]) :=
  C8_amended ["h"] 24 ⟨"f.csv", true, 1, 1, "h"⟩ rfl

/-- Inserting one sample grows the sorted list by one. -/
theorem length_insertByTsDesc (s : MetricSample) (l : List MetricSample) :
    (insertByTsDesc s l).length = l.length + 1 := by
  induction l with
  | nil => rfl
  | cons t ts ih =>
    unfold insertByTsDesc
    split_ifs <;> simp [ih]

/-- Sorting by timestamp preserves the number of samples. -/
theorem length_sortByTsDesc (l : List MetricSample) :
    (sortByTsDesc l).length = l.length := by
  induction l with
  | nil => rfl
  | cons s ss ih => simp [sortByTsDesc, length_insertByTsDesc, ih]

/-- Claim C3: seasonal_baseline is seasonal over the same-weekday
samples of the (table, metric) pair when at least 3 of them exist, else
global over the 30 most recent samples of any weekday when the pair has
at least 3 samples, else initializing with mean 0 and std 0; and a
degenerate (zero-variance, hence zero-std) non-initializing baseline
makes the engine z of a deviating value exactly sign(x - mean) times
10. -/
theorem C3_seasonal_baseline (hist : List MetricSample) (ds m : String)
    (d : Nat) :
    (3 ≤ hist.countP (fun s =>
        s.dataset == ds && s.metric == m && s.day_of_week == d) →
      AnomalyDetector.get_seasonal_baseline hist ds m d =
        ⟨listMean ((hist.filter (fun s =>
            s.dataset == ds && s.metric == m && s.day_of_week == d)).map
            (fun s => s.value)),
         varSamp ((hist.filter (fun s =>
            s.dataset == ds && s.metric == m && s.day_of_week == d)).map
            (fun s => s.value)),
         BaselineKind.seasonal⟩) ∧
    (hist.countP (fun s =>
        s.dataset == ds && s.metric == m && s.day_of_week == d) < 3 →
      3 ≤ hist.countP (fun s => s.dataset == ds && s.metric == m) →
      AnomalyDetector.get_seasonal_baseline hist ds m d =
        ⟨listMean (((sortByTsDesc (hist.filter (fun s =>
            s.dataset == ds && s.metric == m))).take 30).map
            (fun s => s.value)),
         varSamp (((sortByTsDesc (hist.filter (fun s =>
            s.dataset == ds && s.metric == m))).take 30).map
            (fun s => s.value)),
         BaselineKind.globalHistory⟩) ∧
    (hist.countP (fun s =>
        s.dataset == ds && s.metric == m && s.day_of_week == d) < 3 →
      hist.countP (fun s => s.dataset == ds && s.metric == m) < 3 →
      AnomalyDetector.get_seasonal_baseline hist ds m d =
        ⟨0, 0, BaselineKind.initializing⟩) ∧
    (∀ x : ℚ,
      (AnomalyDetector.get_seasonal_baseline hist ds m d).std_sq = 0 →
      (AnomalyDetector.get_seasonal_baseline hist ds m d).kind ≠
        BaselineKind.initializing →
      x ≠ (AnomalyDetector.get_seasonal_baseline hist ds m d).mean →
      (evalMetric (AnomalyDetector.get_seasonal_baseline hist ds m d).mean 0
          (AnomalyDetector.get_seasonal_baseline hist ds m d).kind
          x).z_internal =
        (if (AnomalyDetector.get_seasonal_baseline hist ds m d).mean < x
         then 10 else -10)) := by
  refine ⟨?_, ?_, ?_, ?_⟩
  · intro h3
    rw [List.countP_eq_length_filter] at h3
    unfold AnomalyDetector.get_seasonal_baseline
    rw [if_pos (by simpa using h3)]
  · intro hs hg
    rw [List.countP_eq_length_filter] at hs hg
    unfold AnomalyDetector.get_seasonal_baseline
    rw [if_neg (by simp only [List.length_map]; omega)]
    rw [if_pos (by
      simp only [List.length_map, List.length_take, length_sortByTsDesc]
      omega)]
  · intro hs hg
    rw [List.countP_eq_length_filter] at hs hg
    unfold AnomalyDetector.get_seasonal_baseline
    rw [if_neg (by simp only [List.length_map]; omega)]
    rw [if_neg (by
      simp only [List.length_map, List.length_take, length_sortByTsDesc]
      omega)]
  · intro x h0 hk hx
    unfold evalMetric
    rw [if_neg hk]
    have hz : zVal (AnomalyDetector.get_seasonal_baseline hist ds m d).mean
        0 x =
        (if (AnomalyDetector.get_seasonal_baseline hist ds m d).mean < x
         then 10 else -10) := by
      unfold zVal
      rw [if_pos rfl, if_neg hx]
    split <;> exact hz

theorem C3_witness :
    AnomalyDetector.get_seasonal_baseline C3hist "t" "row_count" 2 =
      ⟨listMean ((C3hist.filter (fun s =>
          s.dataset == "t" && s.metric == "row_count" &&
            s.day_of_week == 2)).map (fun s => s.value)),
       varSamp ((C3hist.filter (fun s =>
          s.dataset == "t" && s.metric == "row_count" &&
            s.day_of_week == 2)).map (fun s => s.value)),
       BaselineKind.seasonal⟩ ∧
    (evalMetric
        (AnomalyDetector.get_seasonal_baseline C3hist "t" "row_count" 2).mean 0
        (AnomalyDetector.get_seasonal_baseline C3hist "t" "row_count" 2).kind
        50).z_internal =
      (if (AnomalyDetector.get_seasonal_baseline C3hist "t" "row_count" 2).mean
          < 50 then 10 else -10) := by
  have h := C3_seasonal_baseline C3hist "t" "row_count" 2
  have hb := h.1 (by decide)
  have hfl : ((C3hist.filter (fun s =>
      s.dataset == "t" && s.metric == "row_count" && s.day_of_week == 2)).map
      (fun s => s.value)) = [100, 100, 100] := by decide
  refine ⟨hb, h.2.2.2 50 ?_ ?_ ?_⟩
  · rw [hb]
    show varSamp ((C3hist.filter (fun s =>
      s.dataset == "t" && s.metric == "row_count" && s.day_of_week == 2)).map
      (fun s => s.value)) = 0
    rw [hfl]
    norm_num [varSamp, listMean]
  · rw [hb]
    simp
  · rw [hb]
    show (50 : ℚ) ≠ listMean ((C3hist.filter (fun s =>
      s.dataset == "t" && s.metric == "row_count" && s.day_of_week == 2)).map
      (fun s => s.value))
    rw [hfl]
    norm_num [listMean]

/-- Claim C9: an existing, non-duplicate file whose age equals the
freshness limit is reported fresh with decision CONTINUE by the code,
where the claim (and the boundary case in the repository's own
timeliness test suite) requires stale with decision STOP: is_fresh is
computed as age_hours less-or-equal limit, so equality counts as fresh. -/
theorem C9_boundary_eval :
    (FileMetadataTool.run [] 24 ⟨"f.csv", true, 1, 24, "h"⟩).1.status =
        MStatus.fresh ∧
    (FileMetadataTool.run [] 24 ⟨"f.csv", true, 1, 24, "h"⟩).1.decision =
        MDecision.CONTINUE := by
  constructor <;> rfl

/-- The report of the fully-passed path is never FAIL and never carries
critical errors: helper for C1. -/
theorem happyPath_fail_iff (inp : GInputs) :
    ((Contracts.MonitorAgent.happyPath inp).1.status = GStatus.FAIL ↔
      (Contracts.MonitorAgent.happyPath inp).1.critical_errors ≠ []) := by
  have hor : (Contracts.MonitorAgent.happyPath inp).1.status =
      GStatus.PASS_WITH_WARNINGS ∨
      (Contracts.MonitorAgent.happyPath inp).1.status = GStatus.PASS :=
    ite_eq_or_eq _ _ _
  constructor
  · intro hst
    rcases hor with h | h <;> rw [hst] at h <;> exact absurd h (by decide)
  · intro hne
    exact absurd (rfl : (Contracts.MonitorAgent.happyPath inp).1.critical_errors = []) hne

/-- Claim C1: every report the Gatekeeper run emits has status FAIL
exactly when its critical_errors list is non-empty; in particular PASS,
PASS_WITH_WARNINGS and CONTRACT_MISSING reports carry none. -/
theorem C1_fail_iff (inp : GInputs) (rep : GReport) (tr : List GEvent)
    (h : Contracts.MonitorAgent.run inp = some (rep, tr)) :
    rep.status = GStatus.FAIL ↔ rep.critical_errors ≠ [] := by
  unfold Contracts.MonitorAgent.run at h
  split_ifs at h with h1 h2 h3 h4
  · simp only [Option.some.injEq, Prod.mk.injEq] at h
    rw [← h.1]
    simp
  · simp only [Option.some.injEq, Prod.mk.injEq] at h
    rw [← h.1]
    simp
  · simp only [Option.some.injEq, Prod.mk.injEq] at h
    rw [← h.1]
    simp
  · cases hc : inp.consistency
    · simp only [hc, Option.some.injEq] at h
      have hrep : (Contracts.MonitorAgent.happyPath inp).1 = rep := by rw [h]
      rw [← hrep]
      exact happyPath_fail_iff inp
    · simp only [hc] at h
      simp at h
    · simp only [hc] at h
      simp at h
    · simp only [hc] at h
      split_ifs at h with h5
      · simp only [Option.some.injEq, Prod.mk.injEq] at h
        rw [← h.1]
        simp
      · simp only [Option.some.injEq] at h
        have hrep : (Contracts.MonitorAgent.happyPath inp).1 = rep := by rw [h]
        rw [← hrep]
        exact happyPath_fail_iff inp
  · simp only [Option.some.injEq, Prod.mk.injEq] at h
    rw [← h.1]
    simp

theorem C1_fail_iff_witness :
    ((⟨GStatus.FAIL, [GError.sanityErr (some (MReason.tooOld 48 24))], []⟩ :
        GReport).status = GStatus.FAIL ↔
      (⟨GStatus.FAIL, [GError.sanityErr (some (MReason.tooOld 48 24))], []⟩ :
        GReport).critical_errors ≠ []) :=
  C1_fail_iff C1staleRun
    ⟨GStatus.FAIL, [GError.sanityErr (some (MReason.tooOld 48 24))], []⟩
    [GEvent.probeMetadata, GEvent.composeVerdict, GEvent.emitReport]
    (by decide)

/-- Claim C5 fails on the code: a clean run appends the current metrics
to the drift store at step 5, before the final verdict of step 6 is
composed; in its trace saveMetrics sits at index 6 and composeVerdict at
index 9, with no verdict composition before the append. -/
theorem C5_counterexample : ¬ ClaimC5 := by
  intro h
  have h2 := h C5cleanRun ⟨GStatus.PASS, [], []⟩
    [GEvent.probeMetadata, GEvent.loadData, GEvent.validateSchema,
     GEvent.checkConsistency, GEvent.profileStats, GEvent.driftCheck,
     GEvent.saveMetrics, GEvent.seasonalCheck, GEvent.learnSeasonal,
     GEvent.composeVerdict, GEvent.emitReport]
    (by decide) ⟨6, by decide⟩ (by decide)
  exact absurd h2 (by decide)

/-- Claim C5 amended: in every emitted run the metric append happens
strictly BEFORE the verdict is composed, and it happens only in runs
that reached and passed schema validation and the consistency check (no
early-exit run appends metrics). -/
theorem C5_amended (inp : GInputs) (rep : GReport) (tr : List GEvent)
    (h : Contracts.MonitorAgent.run inp = some (rep, tr)) :
    (∀ i j : Fin tr.length, tr.get i = GEvent.saveMetrics →
      tr.get j = GEvent.composeVerdict → (i : ℕ) < (j : ℕ)) ∧
    (GEvent.saveMetrics ∈ tr →
      GEvent.validateSchema ∈ tr ∧ GEvent.checkConsistency ∈ tr) := by
  have hhappy : ∀ hq : inp.schema.decision_critical = false,
      Contracts.MonitorAgent.happyPath inp = (rep, tr) →
      (∀ i j : Fin tr.length, tr.get i = GEvent.saveMetrics →
        tr.get j = GEvent.composeVerdict → (i : ℕ) < (j : ℕ)) ∧
      (GEvent.saveMetrics ∈ tr →
        GEvent.validateSchema ∈ tr ∧ GEvent.checkConsistency ∈ tr) := by
    intro hq hh
    have htr : tr = [GEvent.probeMetadata, GEvent.loadData,
        GEvent.validateSchema, GEvent.checkConsistency, GEvent.profileStats,
        GEvent.driftCheck, GEvent.saveMetrics, GEvent.seasonalCheck,
        GEvent.learnSeasonal, GEvent.composeVerdict, GEvent.emitReport] := by
      have := congrArg Prod.snd hh
      simp only [Contracts.MonitorAgent.happyPath, hq] at this
      exact this.symm
    subst htr
    exact ⟨by decide, by decide⟩
  unfold Contracts.MonitorAgent.run at h
  split_ifs at h with h1 h2 h3 h4
  · simp only [Option.some.injEq, Prod.mk.injEq] at h
    rw [← h.2]
    exact ⟨by decide, by decide⟩
  · simp only [Option.some.injEq, Prod.mk.injEq] at h
    rw [← h.2]
    exact ⟨by decide, by decide⟩
  · simp only [Option.some.injEq, Prod.mk.injEq] at h
    rw [← h.2]
    exact ⟨by decide, by decide⟩
  · have h4f : inp.schema.decision_critical = false := by
      revert h4
      cases inp.schema.decision_critical <;> simp
    cases hc : inp.consistency
    · simp only [hc, Option.some.injEq] at h
      exact hhappy h4f h
    · simp only [hc] at h
      simp at h
    · simp only [hc] at h
      simp at h
    · simp only [hc] at h
      split_ifs at h with h5
      · simp only [Option.some.injEq, Prod.mk.injEq] at h
        rw [← h.2]
        exact ⟨by decide, by decide⟩
      · simp only [Option.some.injEq] at h
        exact hhappy h4f h
  · simp only [Option.some.injEq, Prod.mk.injEq] at h
    rw [← h.2]
    exact ⟨by decide, by decide⟩

theorem C5_amended_witness :
    (∀ i j : Fin ([GEvent.probeMetadata, GEvent.loadData,
        GEvent.validateSchema, GEvent.checkConsistency, GEvent.profileStats,
        GEvent.driftCheck, GEvent.saveMetrics, GEvent.seasonalCheck,
        GEvent.learnSeasonal, GEvent.composeVerdict,
        GEvent.emitReport] : List GEvent).length,
      ([GEvent.probeMetadata, GEvent.loadData, GEvent.validateSchema,
        GEvent.checkConsistency, GEvent.profileStats, GEvent.driftCheck,
        GEvent.saveMetrics, GEvent.seasonalCheck, GEvent.learnSeasonal,
        GEvent.composeVerdict, GEvent.emitReport] : List GEvent).get i =
          GEvent.saveMetrics →
      ([GEvent.probeMetadata, GEvent.loadData, GEvent.validateSchema,
        GEvent.checkConsistency, GEvent.profileStats, GEvent.driftCheck,
        GEvent.saveMetrics, GEvent.seasonalCheck, GEvent.learnSeasonal,
        GEvent.composeVerdict, GEvent.emitReport] : List GEvent).get j =
          GEvent.composeVerdict → (i : ℕ) < (j : ℕ)) ∧
    (GEvent.saveMetrics ∈ ([GEvent.probeMetadata, GEvent.loadData,
        GEvent.validateSchema, GEvent.checkConsistency, GEvent.profileStats,
        GEvent.driftCheck, GEvent.saveMetrics, GEvent.seasonalCheck,
        GEvent.learnSeasonal, GEvent.composeVerdict,
        GEvent.emitReport] : List GEvent) →
      GEvent.validateSchema ∈ ([GEvent.probeMetadata, GEvent.loadData,
        GEvent.validateSchema, GEvent.checkConsistency, GEvent.profileStats,
        GEvent.driftCheck, GEvent.saveMetrics, GEvent.seasonalCheck,
        GEvent.learnSeasonal, GEvent.composeVerdict,
        GEvent.emitReport] : List GEvent) ∧
      GEvent.checkConsistency ∈ ([GEvent.probeMetadata, GEvent.loadData,
        GEvent.validateSchema, GEvent.checkConsistency, GEvent.profileStats,
        GEvent.driftCheck, GEvent.saveMetrics, GEvent.seasonalCheck,
        GEvent.learnSeasonal, GEvent.composeVerdict,
        GEvent.emitReport] : List GEvent)) :=
  C5_amended C5cleanRun ⟨GStatus.PASS, [], []⟩
    [GEvent.probeMetadata, GEvent.loadData, GEvent.validateSchema,
     GEvent.checkConsistency, GEvent.profileStats, GEvent.driftCheck,
     GEvent.saveMetrics, GEvent.seasonalCheck, GEvent.learnSeasonal,
     GEvent.composeVerdict, GEvent.emitReport]
    (by decide)

/-- Claim C6 fails on the code: the checker validates only the FIRST
foreignKeys entry; with a contract defining two foreign keys where only
the second has an orphan (the child value 9 on key b is absent from
reference r2), the run reports the first key's clean result and the
decision is not CRITICAL_STOP. -/
theorem C6_counterexample : ¬ ClaimC6 := by
  intro h
  have h2 := h C6refEnv C6df "t" C6contract
    ⟨some "t", [⟨["a"], some "r1", ["x"]⟩, ⟨["b"], some "r2", ["y"]⟩]⟩
    ⟨["b"], some "r2", ["y"]⟩ "b" "r2" "y"
    (by decide) rfl (by decide) rfl rfl rfl (by decide)
  exact absurd h2 (by decide)

/-- Claim C6 amended: the checker validates the FIRST foreignKeys entry
only (later entries are ignored); for that entry it loads the named
reference table, compares on the common string representation, counts
the child rows whose key is non-null and absent from the reference,
reports the percentage and at most 5 unique sampled orphan IDs, and a
positive orphan count makes the decision CRITICAL_STOP, the tool status
FAIL, and the Gatekeeper run that receives this result FAIL. -/
theorem C6_amended (refEnv : String → Option DataFrame) (df : DataFrame)
    (table : String) (c : ContractDoc) (ts : SchemaObj) (rest : List FKDef)
    (fk : FKDef) (fk_col ref_table ref_pk : String) (refDf : DataFrame)
    (hfind : ConsistencyCheckTool.findTargetSchema c table = some ts)
    (hfks : ts.foreignKeys = fk :: rest)
    (hc1 : fk.columns.head? = some fk_col)
    (hc2 : fk.referenceTable = some ref_table)
    (hc3 : fk.referenceColumns.head? = some ref_pk)
    (hcol : df.columns.contains fk_col = true)
    (href : refEnv ref_table = some refDf)
    (hpk : refDf.columns.contains ref_pk = true)
    (hn : df.nRows ≠ 0) :
    ConsistencyCheckTool.run refEnv df table (some c) =
      CResult.checked
        (table ++ "." ++ fk_col ++ " -> " ++ ref_table ++ "." ++ ref_pk)
        (fkOrphans refEnv df fk_col ref_table ref_pk).length
        (((fkOrphans refEnv df fk_col ref_table ref_pk).length : ℚ) /
          (df.nRows : ℚ) * 100)
        ((uniqueFirst (fkOrphans refEnv df fk_col ref_table ref_pk)).take 5) ∧
    ((ConsistencyCheckTool.run refEnv df table (some c)).criticalStop = true ↔
      0 < (fkOrphans refEnv df fk_col ref_table ref_pk).length) ∧
    ((uniqueFirst (fkOrphans refEnv df fk_col ref_table ref_pk)).take
      5).length ≤ 5 ∧
    (0 < (fkOrphans refEnv df fk_col ref_table ref_pk).length →
      (ConsistencyCheckTool.run refEnv df table (some c)).statusFail = true ∧
      ∀ (g : GInputs) (rep : GReport) (tr : List GEvent),
        g.consistency = ConsistencyCheckTool.run refEnv df table (some c) →
        Contracts.MonitorAgent.run g = some (rep, tr) →
        (FileMetadataTool.run g.seen g.freshness_limit g.file).1.decision ≠
          MDecision.STOP →
        g.load.critical_stop = false → g.load.rows ≠ none →
        g.contract_found = true → g.schema.decision_critical = false →
        rep.status = GStatus.FAIL) := by
  have hrun : ConsistencyCheckTool.run refEnv df table (some c) =
      CResult.checked
        (table ++ "." ++ fk_col ++ " -> " ++ ref_table ++ "." ++ ref_pk)
        (fkOrphans refEnv df fk_col ref_table ref_pk).length
        (((fkOrphans refEnv df fk_col ref_table ref_pk).length : ℚ) /
          (df.nRows : ℚ) * 100)
        ((uniqueFirst (fkOrphans refEnv df fk_col ref_table ref_pk)).take 5) := by
    unfold ConsistencyCheckTool.run
    simp only [hfind, hfks, hc1, hc2, hc3, href, hcol, hpk]
    simp [hn]
  refine ⟨hrun, ?_, List.length_take_le _ _, ?_⟩
  · rw [hrun]
    simp [CResult.criticalStop]
  · intro hpos
    refine ⟨by rw [hrun]; simpa [CResult.statusFail] using hpos, ?_⟩
    intro g rep tr hcons hgrun hmd hl1 hl2 hcf hsd
    unfold Contracts.MonitorAgent.run at hgrun
    rw [if_neg hmd] at hgrun
    rw [if_neg (by rw [hl1]; simp [hl2])] at hgrun
    rw [if_pos hcf] at hgrun
    rw [if_neg (by rw [hsd]; simp)] at hgrun
    rw [hcons, hrun] at hgrun
    simp only [] at hgrun
    rw [if_pos hpos] at hgrun
    simp only [Option.some.injEq, Prod.mk.injEq] at hgrun
    rw [← hgrun.1]

theorem C6_amended_witness :
    ConsistencyCheckTool.run C6refEnv C6wdf "t" (some C6wcontract) =
      CResult.checked ("t" ++ "." ++ "a" ++ " -> " ++ "r1" ++ "." ++ "x")
        (fkOrphans C6refEnv C6wdf "a" "r1" "x").length
        (((fkOrphans C6refEnv C6wdf "a" "r1" "x").length : ℚ) /
          (C6wdf.nRows : ℚ) * 100)
        ((uniqueFirst (fkOrphans C6refEnv C6wdf "a" "r1" "x")).take 5) ∧
    ((ConsistencyCheckTool.run C6refEnv C6wdf "t"
        (some C6wcontract)).criticalStop = true ↔
      0 < (fkOrphans C6refEnv C6wdf "a" "r1" "x").length) ∧
    (ConsistencyCheckTool.run C6refEnv C6wdf "t"
        (some C6wcontract)).statusFail = true := by
  have h := C6_amended C6refEnv C6wdf "t" C6wcontract
    ⟨some "t", [⟨["a"], some "r1", ["x"]⟩]⟩ [] ⟨["a"], some "r1", ["x"]⟩
    "a" "r1" "x" ⟨[("x", [some (Cell.intC 1)])]⟩
    (by decide) rfl rfl rfl rfl (by decide) (by decide) (by decide)
    (by decide)
  exact ⟨h.1, h.2.1, (h.2.2.2 (by decide)).1⟩

/-- Claim C7 fails on the code: the syntactic gate only requires the
presence of a columns key, not a non-empty columns list; with a current
contract and a proposal that both carry an empty columns list, the
proposal passes both gates and is returned even though the claim demands
rejection with the original returned unchanged. -/
theorem C7_counterexample : ¬ ClaimC7 := by
  intro h
  have h2 := (h C7parse "cur" "prop").2 (by decide)
  have h3 : SchemaRemediator.propose_schema_update C7parse "cur" "prop" =
      "prop" := by decide
  rw [h2] at h3
  exact absurd h3 (by decide)

/-- Claim C7 amended: gate 1 only requires a parsed non-None mapping
with a columns KEY (the list may be empty); when both the current
contract and the proposal parse to truthy documents with iterable
columns lists, any call that returns the proposal satisfies the
non-shrink property (the current names are a subset of the proposal's),
and failure at either gate returns the original contract unchanged. -/
theorem C7_amended (parse : String → Option PyDoc) (cur prop_ : String)
    (o p : PyDoc) (oc pc : List (Option String))
    (ho : parse cur = some o) (hot : o.truthy = true)
    (hoc : SchemaRemediator.colNamesOf o = some oc)
    (hp : parse prop_ = some p) (hpt : p.truthy = true)
    (hpc : SchemaRemediator.colNamesOf p = some pc) :
    (SchemaRemediator.propose_schema_update parse cur prop_ ≠ cur →
      ∀ n ∈ oc, n ∈ pc) ∧
    (SchemaRemediator._validate_yaml parse prop_ = false →
      SchemaRemediator.propose_schema_update parse cur prop_ = cur) ∧
    (SchemaRemediator._validate_no_columns_removed parse cur prop_ = false →
      SchemaRemediator.propose_schema_update parse cur prop_ = cur) := by
  refine ⟨?_, ?_, ?_⟩
  · intro hne n hn
    by_cases g1 : SchemaRemediator._validate_yaml parse prop_ = true
    · by_cases g2 :
          SchemaRemediator._validate_no_columns_removed parse cur prop_ = true
      · unfold SchemaRemediator._validate_no_columns_removed at g2
        simp [ho, hp, hot, hpt, hoc, hpc] at g2
        exact g2 n hn
      · exact absurd (by
          unfold SchemaRemediator.propose_schema_update
          rw [g1]
          simp [Bool.eq_false_iff.mpr g2]) hne
    · exact absurd (by
        unfold SchemaRemediator.propose_schema_update
        simp [Bool.eq_false_iff.mpr g1]) hne
  · intro hg
    unfold SchemaRemediator.propose_schema_update
    rw [hg]
    simp
  · intro hg
    unfold SchemaRemediator.propose_schema_update
    by_cases g1 : SchemaRemediator._validate_yaml parse prop_ = true
    · rw [g1, hg]
      simp
    · simp [Bool.eq_false_iff.mpr g1]

theorem C7_amended_witness :
    (∀ n ∈ ([some "a"] : List (Option String)),
      n ∈ ([some "a", some "b"] : List (Option String))) ∧
    (SchemaRemediator._validate_yaml C7parseW "prop" = false →
      SchemaRemediator.propose_schema_update C7parseW "cur" "prop" = "cur") := by
  have h := C7_amended C7parseW "cur" "prop"
    ⟨false, true, true, true, some [some "a"]⟩
    ⟨false, true, true, true, some [some "a", some "b"]⟩
    [some "a"] [some "a", some "b"]
    (by decide) rfl (by decide) (by decide) rfl (by decide)
  exact ⟨h.1 (by decide), h.2.1⟩

/-- Claim C10: the registry upsert overwrites contract_path, lifecycle,
criticality and last_scanned unconditionally, keeps the stored
last_status and last_file_mtime when the corresponding argument is None
and overwrites them when it is not, and increments scan_count by exactly
one per call, starting at 1 on first insert. -/
theorem C10_registry_upsert (existing : Option RegistryEntry)
    (dn cp lc cr : String) (now : Nat) (st : Option String) (mt : Option ℚ) :
    (AnomalyDetector.update_dataset_registry existing dn cp lc cr now st
      mt).contract_path = cp ∧
    (AnomalyDetector.update_dataset_registry existing dn cp lc cr now st
      mt).lifecycle = lc ∧
    (AnomalyDetector.update_dataset_registry existing dn cp lc cr now st
      mt).criticality = cr ∧
    (AnomalyDetector.update_dataset_registry existing dn cp lc cr now st
      mt).last_scanned = now ∧
    (AnomalyDetector.update_dataset_registry existing dn cp lc cr now st
      mt).dataset_name = dn ∧
    (match existing with
     | some e =>
        (st = none →
          (AnomalyDetector.update_dataset_registry existing dn cp lc cr now st
            mt).last_status = e.last_status) ∧
        (∀ s, st = some s →
          (AnomalyDetector.update_dataset_registry existing dn cp lc cr now st
            mt).last_status = some s) ∧
        (mt = none →
          (AnomalyDetector.update_dataset_registry existing dn cp lc cr now st
            mt).last_file_mtime = e.last_file_mtime) ∧
        (∀ q, mt = some q →
          (AnomalyDetector.update_dataset_registry existing dn cp lc cr now st
            mt).last_file_mtime = some q) ∧
        (AnomalyDetector.update_dataset_registry existing dn cp lc cr now st
          mt).scan_count = e.scan_count + 1
     | none =>
        (AnomalyDetector.update_dataset_registry existing dn cp lc cr now st
          mt).last_status = st ∧
        (AnomalyDetector.update_dataset_registry existing dn cp lc cr now st
          mt).last_file_mtime = mt ∧
        (AnomalyDetector.update_dataset_registry existing dn cp lc cr now st
          mt).scan_count = 1) := by
  cases existing with
  | none => exact ⟨rfl, rfl, rfl, rfl, rfl, rfl, rfl, rfl⟩
  | some e =>
    refine ⟨rfl, rfl, rfl, rfl, rfl, ?_, ?_, ?_, ?_, rfl⟩
    · intro hst
      rw [hst]
      rfl
    · intro s hst
      rw [hst]
      rfl
    · intro hmt
      rw [hmt]
      rfl
    · intro q hmt
      rw [hmt]
      rfl

theorem C10_registry_upsert_witness :
    (AnomalyDetector.update_dataset_registry (some C10entry) "transactions"
      "new.yaml" "active" "HIGH" 7 none (some 99)).last_status =
        C10entry.last_status ∧
    (AnomalyDetector.update_dataset_registry (some C10entry) "transactions"
      "new.yaml" "active" "HIGH" 7 none (some 99)).last_file_mtime = some 99 ∧
    (AnomalyDetector.update_dataset_registry (some C10entry) "transactions"
      "new.yaml" "active" "HIGH" 7 none (some 99)).scan_count =
        C10entry.scan_count + 1 ∧
    (AnomalyDetector.update_dataset_registry (some C10entry) "transactions"
      "new.yaml" "active" "HIGH" 7 none (some 99)).contract_path =
        "new.yaml" := by
  have h := C10_registry_upsert (some C10entry) "transactions" "new.yaml"
    "active" "HIGH" 7 none (some 99)
  exact ⟨(h.2.2.2.2.2).1 rfl, (h.2.2.2.2.2).2.2.2.1 99 rfl,
    (h.2.2.2.2.2).2.2.2.2, h.1⟩

end DRE
